import Mathlib

/-!
Shallow embedding of the `StellarService` blockchain registration bridge of
the ManageAssets repository (`src/stellar/stellar.service.ts`), together with
the backend `AssetStatus` enumeration it consumes.

Conventions of the embedding:
* machine integers are `Nat`/`Int` with explicit `% 2 ^ w` where overflow
  matters;
* JavaScript IEEE-754 double-precision numbers are represented exactly as
  pairs `(m, e) : ℤ × ℤ` denoting `m * 2 ^ e` with `2 ^ 52 ≤ |m| < 2 ^ 53`
  (normal range, which covers every value arising in the price conversion),
  and each arithmetic step rounds to nearest, ties to even, as IEEE-754
  prescribes;
* fallible code returns `Except`;
* the external RPC endpoint is an explicit oracle (`Network`), and the
  service records which network calls it performs.
-/

namespace ManageAssets

/-- The backend `AssetStatus` enumeration (`src/assets/enums.ts`), whose four
values `ACTIVE / ASSIGNED / MAINTENANCE / RETIRED` are enumerated by the
frontend (`components/assets/status-badge.tsx` and the assets page). -/
inductive AssetStatus
  | ACTIVE
  | ASSIGNED
  | MAINTENANCE
  | RETIRED
deriving DecidableEq

/-- Embedding of `StellarService.mapStatus`: backend `AssetStatus` → Soroban enum variant
string.  The source is a `switch` with a single `RETIRED` case and a
`default` returning `'Active'`. -/
def mapStatus : AssetStatus → String
  | AssetStatus.RETIRED => "Retired"
  | _ => "Active"

/-! ## Exact model of JavaScript number arithmetic (IEEE-754 binary64)

The only floating-point computation in the service is
`Math.round(Number(asset.purchasePrice) * 100)`.  We model binary64 values
in the normal range exactly as `m * 2 ^ e` and implement round-to-nearest,
ties-to-even. -/

/-- Round the nonnegative rational `a / b` (with `b > 0`) to the nearest
natural number, ties to even. -/
def roundNE (a b : ℕ) : ℕ :=
  let q := a / b
  let r := a % b
  if 2 * r < b then q
  else if b < 2 * r then q + 1
  else if q % 2 = 0 then q else q + 1

/-- Fuel-bounded floor of `log₂`; structural recursion so that the kernel
can evaluate it. -/
def log2fuel : ℕ → ℕ → ℕ
  | 0, _ => 0
  | f + 1, n => if 2 ≤ n then log2fuel f (n / 2) + 1 else 0

/-- Floor of `log₂ n` for `0 < n < 2 ^ 200` (all numbers arising here). -/
def nlog2 (n : ℕ) : ℕ := log2fuel 200 n

/-- The mantissa obtained when representing `a / b` at binary exponent `e`:
`round((a / b) / 2 ^ e)`, nearest, ties to even. -/
def mantAt (a b : ℕ) (e : ℤ) : ℕ :=
  if 0 ≤ e then roundNE a (b * 2 ^ e.toNat) else roundNE (a * 2 ^ (-e).toNat) b

/-- Round the positive rational `a / b` to the nearest binary64 value
`(m, e)` with `2 ^ 52 ≤ m < 2 ^ 53` (normal range; no overflow/subnormal
handling, which no value in this service reaches). -/
def ratToDoubleP (a b : ℕ) : ℕ × ℤ :=
  let g : ℤ := (nlog2 a : ℤ) - (nlog2 b : ℤ)
  let e : ℤ := g - 52
  let m := mantAt a b e
  if m < 2 ^ 52 then (mantAt a b (e - 1), e - 1)
  else if 2 ^ 53 ≤ m then (mantAt a b (e + 1), e + 1)
  else (m, e)

/-- JavaScript `Number(...)` applied to an exact decimal value: the nearest
binary64, as a pair `(mantissa, exponent)` denoting `m * 2 ^ e`. -/
def jsNumber (q : ℚ) : ℤ × ℤ :=
  if q = 0 then (0, 0)
  else
    let p := ratToDoubleP q.num.natAbs q.den
    (if q.num < 0 then -(p.1 : ℤ) else (p.1 : ℤ), p.2)

/-- Round the exact value `n * 2 ^ e` to the nearest binary64. -/
def mkDouble (n : ℤ) (e : ℤ) : ℤ × ℤ :=
  if n = 0 then (0, 0)
  else
    let p := if 0 ≤ e then ratToDoubleP (n.natAbs * 2 ^ e.toNat) 1
             else ratToDoubleP n.natAbs (2 ^ (-e).toNat)
    (if n < 0 then -(p.1 : ℤ) else (p.1 : ℤ), p.2)

/-- Binary64 multiplication by the exact constant `100`: the exact product
rounded back to binary64. -/
def dmul100 (d : ℤ × ℤ) : ℤ × ℤ := mkDouble (d.1 * 100) d.2

/-- JavaScript `Math.round` on the exact value of a binary64 `(m, e)`:
the closest integer, ties toward `+∞`, i.e. `⌊m * 2 ^ e + 1 / 2⌋`. -/
def jsRoundD (d : ℤ × ℤ) : ℤ :=
  if 0 ≤ d.2 then d.1 * 2 ^ d.2.toNat
  else (2 * d.1 + 2 ^ (-d.2).toNat) / (2 * 2 ^ (-d.2).toNat)

/-- The purchase-price conversion of `registerAsset` (line 79):
`asset.purchasePrice ? Math.round(Number(asset.purchasePrice) * 100) : 0`.
A missing (or JS-falsy) price is `none` and yields `0`; otherwise the exact
decimal price is converted to binary64, multiplied by `100` in binary64, and
rounded with `Math.round`. -/
def jsCents (price : Option ℚ) : ℤ :=
  match price with
  | none => 0
  | some q => jsRoundD (dmul100 (jsNumber q))

/-- Truncation of a rational toward zero — the operation the specification
text calls "truncating to an integer" (for comparison with the code's
`Math.round`). -/
def ratTrunc (q : ℚ) : ℤ :=
  Int.tdiv q.num (q.den : ℤ)

/-- The conversion the specification text describes: multiply the price by
`100` exactly and truncate to an integer. -/
def specTruncCents (q : ℚ) : ℤ := ratTrunc (q * 100)

/-! ## Transaction-status polling (`pollForConfirmation`) -/

/-- Result statuses of the RPC `getTransaction` call
(`rpc.Api.GetTransactionStatus`): `SUCCESS` and `FAILED` are terminal,
`NOT_FOUND` means still pending. -/
inductive GetTxStatus
  | SUCCESS
  | FAILED
  | NOT_FOUND
deriving DecidableEq

/-- Error message of the on-chain-failure branch (line 181). -/
def onChainFailMsg (txHash : String) : String :=
  "Transaction failed on-chain: " ++ txHash

/-- Error message of the poll-budget-exhausted branch (line 188). -/
def timeoutMsg (txHash : String) : String :=
  "Transaction not confirmed after " ++ toString 20 ++ " attempts: " ++ txHash

/-- The body of the polling loop of `pollForConfirmation`, with `remaining`
iterations left and the current 1-based `attempt` counter; `getTx n` is the
status the RPC endpoint reports on the `n`-th poll.  Returns the outcome
together with the number of `getTransaction` calls performed. -/
def pollAux (getTx : ℕ → GetTxStatus) (txHash : String) :
    (attempt : ℕ) → (remaining : ℕ) → Except String String × ℕ
  | _, 0 => (Except.error (timeoutMsg txHash), 0)
  | attempt, r + 1 =>
    match getTx attempt with
    | GetTxStatus.SUCCESS => (Except.ok txHash, 1)
    | GetTxStatus.FAILED => (Except.error (onChainFailMsg txHash), 1)
    | GetTxStatus.NOT_FOUND =>
      let p := pollAux getTx txHash (attempt + 1) r
      (p.1, p.2 + 1)

/-- Embedding of `StellarService.pollForConfirmation`: 20 attempts, starting at
attempt 1 (the 3-second sleep has no observable effect in this model). -/
def pollForConfirmation (getTx : ℕ → GetTxStatus) (txHash : String) :
    Except String String × ℕ :=
  pollAux getTx txHash 1 20

/-! ## SHA-256 (FIPS 180-4), the hash behind `deriveAssetId`

`deriveAssetId` calls Node's `crypto.createHash('sha256')`; we embed the
standard algorithm over byte lists (each byte a `Nat < 256`), 32-bit words
as `Nat` with explicit `% 2 ^ 32`. -/

/-- Addition modulo `2 ^ 32`. -/
def add32 (x y : ℕ) : ℕ := (x + y) % 4294967296

/-- Right rotation of a 32-bit word (`0 < n < 32`, `x < 2 ^ 32`). -/
def rotr (n x : ℕ) : ℕ := x / 2 ^ n + x % 2 ^ n * 2 ^ (32 - n)

/-- Logical right shift of a 32-bit word. -/
def shr (n x : ℕ) : ℕ := x / 2 ^ n

/-- Bitwise complement of a 32-bit word (`x < 2 ^ 32`). -/
def not32 (x : ℕ) : ℕ := 4294967295 - x

/-- SHA-256 `Ch` function. -/
def ch32 (e f g : ℕ) : ℕ := Nat.xor (Nat.land e f) (Nat.land (not32 e) g)

/-- SHA-256 `Maj` function. -/
def maj32 (a b c : ℕ) : ℕ :=
  Nat.xor (Nat.land a b) (Nat.xor (Nat.land a c) (Nat.land b c))

/-- SHA-256 big sigma 0. -/
def bsig0 (x : ℕ) : ℕ := Nat.xor (rotr 2 x) (Nat.xor (rotr 13 x) (rotr 22 x))

/-- SHA-256 big sigma 1. -/
def bsig1 (x : ℕ) : ℕ := Nat.xor (rotr 6 x) (Nat.xor (rotr 11 x) (rotr 25 x))

/-- SHA-256 small sigma 0. -/
def ssig0 (x : ℕ) : ℕ := Nat.xor (rotr 7 x) (Nat.xor (rotr 18 x) (shr 3 x))

/-- SHA-256 small sigma 1. -/
def ssig1 (x : ℕ) : ℕ := Nat.xor (rotr 17 x) (Nat.xor (rotr 19 x) (shr 10 x))

/-- The 64 SHA-256 round constants. -/
def K256 : List ℕ :=
  [1116352408, 1899447441, 3049323471, 3921009573,
   961987163, 1508970993, 2453635748, 2870763221,
   3624381080, 310598401, 607225278, 1426881987,
   1925078388, 2162078206, 2614888103, 3248222580,
   3835390401, 4022224774, 264347078, 604807628,
   770255983, 1249150122, 1555081692, 1996064986,
   2554220882, 2821834349, 2952996808, 3210313671,
   3336571891, 3584528711, 113926993, 338241895,
   666307205, 773529912, 1294757372, 1396182291,
   1695183700, 1986661051, 2177026350, 2456956037,
   2730485921, 2820302411, 3259730800, 3345764771,
   3516065817, 3600352804, 4094571909, 275423344,
   430227734, 506948616, 659060556, 883997877,
   958139571, 1322822218, 1537002063, 1747873779,
   1955562222, 2024104815, 2227730452, 2361852424,
   2428436474, 2756734187, 3204031479, 3329325298]

/-- The eight 32-bit working registers of SHA-256. -/
structure Hash8 where
  h0 : ℕ
  h1 : ℕ
  h2 : ℕ
  h3 : ℕ
  h4 : ℕ
  h5 : ℕ
  h6 : ℕ
  h7 : ℕ

/-- SHA-256 initial hash value. -/
def initH : Hash8 :=
  ⟨1779033703, 3144134277, 1013904242, 2773480762,
   1359893119, 2600822924, 528734635, 1541459225⟩

/-- Extend the 16-word message block by `fuel` further schedule words. -/
def extendW : ℕ → List ℕ → List ℕ
  | 0, w => w
  | f + 1, w =>
    let n := w.length
    let x := add32 (add32 (ssig1 (w.getD (n - 2) 0)) (w.getD (n - 7) 0))
                   (add32 (ssig0 (w.getD (n - 15) 0)) (w.getD (n - 16) 0))
    extendW f (w ++ [x])

/-- One SHA-256 round: consume one `(constant, schedule word)` pair. -/
def round256 (st : Hash8) (kw : ℕ × ℕ) : Hash8 :=
  let t1 := add32 st.h7 (add32 (bsig1 st.h4)
    (add32 (ch32 st.h4 st.h5 st.h6) (add32 kw.1 kw.2)))
  let t2 := add32 (bsig0 st.h0) (maj32 st.h0 st.h1 st.h2)
  ⟨add32 t1 t2, st.h0, st.h1, st.h2, add32 st.h3 t1, st.h4, st.h5, st.h6⟩

/-- Process one 512-bit block (given as 16 32-bit words). -/
def processBlock (st : Hash8) (block : List ℕ) : Hash8 :=
  let w := extendW 48 block
  let f := (K256.zip w).foldl round256 st
  ⟨add32 st.h0 f.h0, add32 st.h1 f.h1, add32 st.h2 f.h2, add32 st.h3 f.h3,
   add32 st.h4 f.h4, add32 st.h5 f.h5, add32 st.h6 f.h6, add32 st.h7 f.h7⟩

/-- First `count` bytes of `v`, big-endian. -/
def beBytes : ℕ → ℕ → List ℕ
  | 0, _ => []
  | c + 1, v => beBytes c (v / 256) ++ [v % 256]

/-- SHA-256 padding: append `0x80`, zero bytes up to 56 mod 64, then the
bit length as eight big-endian bytes. -/
def padBytes (msg : List ℕ) : List ℕ :=
  let L := msg.length
  let z := (120 - (L + 1) % 64) % 64
  msg ++ [128] ++ List.replicate z 0 ++ beBytes 8 (8 * L)

/-- Group bytes into big-endian 32-bit words. -/
def toWords : List ℕ → List ℕ
  | b0 :: b1 :: b2 :: b3 :: rest =>
    (((b0 * 256 + b1) * 256 + b2) * 256 + b3) :: toWords rest
  | _ => []

/-- Split a word list into 16-word blocks (`fuel` bounds the recursion). -/
def blocksF : ℕ → List ℕ → List (List ℕ)
  | 0, _ => []
  | _, [] => []
  | f + 1, w => w.take 16 :: blocksF f (w.drop 16)

/-- SHA-256 of a byte list: a 32-byte digest. -/
def sha256 (msg : List ℕ) : List ℕ :=
  let ws := toWords (padBytes msg)
  let hf := (blocksF ws.length ws).foldl processBlock initH
  beBytes 4 hf.h0 ++ beBytes 4 hf.h1 ++ beBytes 4 hf.h2 ++ beBytes 4 hf.h3 ++
  beBytes 4 hf.h4 ++ beBytes 4 hf.h5 ++ beBytes 4 hf.h6 ++ beBytes 4 hf.h7

/-- Lowercase hexadecimal digits. -/
def hexDigits : List Char :=
  String.toList "0123456789abcdef"

/-- Two hex characters of one byte. -/
def byteToHex (b : ℕ) : List Char :=
  [hexDigits.getD (b / 16) '0', hexDigits.getD (b % 16) '0']

/-- Node `Buffer.toString('hex')`: lowercase hex of a byte list. -/
def bytesToHex (bs : List ℕ) : String :=
  ⟨(bs.map byteToHex).flatten⟩

/-- UTF-8 bytes of a string (Node's default encoding for `hash.update`). -/
def strBytes (s : String) : List ℕ :=
  s.toUTF8.toList.map UInt8.toNat

/-- Return type of `deriveAssetId`: the digest bytes and their hex form. -/
structure DerivedId where
  buffer : List ℕ
  hex : String
deriving DecidableEq

/-- Embedding of `StellarService.deriveAssetId`: SHA-256 of the DB UUID, as a buffer and
its hex string. -/
def deriveAssetId (uuid : String) : DerivedId :=
  let buffer := sha256 (strBytes uuid)
  ⟨buffer, bytesToHex buffer⟩

/-! ## Soroban contract-call payloads (`xdr.ScVal`) -/

/-- Shallow model of the XDR `ScVal` values built by `registerAsset`.  Map
keys are always `scvSymbol`s in the source, so map entries pair the symbol
name with a value. -/
inductive ScVal where
  | str : String → ScVal
  | sym : String → ScVal
  | bytes : List ℕ → ScVal
  | u64 : ℕ → ScVal
  | i128 : ℤ → ScVal
  | addr : String → ScVal
  | vec : List ScVal → ScVal
  | map : List (String × ScVal) → ScVal

/-- Look up a symbol key in an `ScvMap` payload. -/
def ScVal.lookup (k : String) : ScVal → Option ScVal
  | ScVal.map entries => (entries.find? (fun e => e.fst == k)).map (fun e => e.snd)
  | _ => none

/-! ## The `Asset` record consumed by the bridge -/

/-- The category relation of an asset; `name` is `Option` so that a present
category with a missing name is representable (`asset.category?.name`). -/
structure Category where
  name : Option String
deriving DecidableEq

/-- The `Asset` entity fields `registerAsset` reads: id, name, description,
category, status, purchase price.  The purchase price is the exact decimal
value of the stored column; `none` stands for a JS-falsy price (absent
column or `0`). -/
structure Asset where
  id : String
  name : String
  description : Option String
  category : Option Category
  status : AssetStatus
  purchasePrice : Option ℚ

/-- The asset `ScvMap` built at lines 82–127 of the service, with its keys
in the source's (alphabetical) order.  `pubKey` is
`this.keypair.publicKey()`, `assetId` the SHA-256 buffer, `cents` the
converted purchase price and `now` the Unix timestamp. -/
def assetScVal (pubKey : String) (assetId : List ℕ) (sorobanStatus : String)
    (cents : ℤ) (asset : Asset) (now : ℕ) : ScVal :=
  ScVal.map
    [("category", ScVal.str (((asset.category.map Category.name).join).getD "")),
     ("custom_attributes", ScVal.vec []),
     ("description", ScVal.str (asset.description.getD "")),
     ("id", ScVal.bytes assetId),
     ("last_transfer_timestamp", ScVal.u64 0),
     ("metadata_uri", ScVal.str ""),
     ("name", ScVal.str asset.name),
     ("owner", ScVal.addr pubKey),
     ("purchase_value", ScVal.i128 cents),
     ("registration_timestamp", ScVal.u64 now),
     ("status", ScVal.vec [ScVal.sym sorobanStatus])]

/-! ## Service configuration and initialization (`onModuleInit`) -/

/-- Log levels used by the service. -/
inductive LogLevel
  | info
  | error
  | debug
deriving DecidableEq

/-- JS truthiness of an optional configuration string: `undefined` and the
empty string are falsy. -/
def falsyStr : Option String → Bool
  | none => true
  | some s => s == ""

/-- The mutable fields `onModuleInit` assigns, plus the log lines it
emits.  `secretKey` stands for the `Keypair` (present iff
`Keypair.fromSecret` was called), `serverInit` for the `rpc.Server`
handle. -/
structure ServiceState where
  enabled : Bool
  secretKey : Option String
  serverInit : Bool
  contractId : Option String
  networkPassphrase : Option String
  logs : List (LogLevel × String)
deriving DecidableEq

/-- Embedding of `StellarService.onModuleInit`, as a function from the configuration
(environment lookup) to the state of the service after startup.  The state
is assigned once here and never mutated afterwards. -/
def initState (cfg : String → Option String) : ServiceState :=
  if cfg "STELLAR_ENABLED" == some "true" then
    let secretKey := cfg "STELLAR_SECRET_KEY"
    let contractId := cfg "STELLAR_CONTRACT_ID"
    let passphrase := (cfg "STELLAR_NETWORK_PASSPHRASE").getD
      "Test SDF Network ; September 2015"
    if falsyStr secretKey || falsyStr contractId then
      { enabled := false
        secretKey := none
        serverInit := false
        contractId := contractId
        networkPassphrase := some passphrase
        logs := [(LogLevel.error,
          "STELLAR_SECRET_KEY and STELLAR_CONTRACT_ID must be set when STELLAR_ENABLED=true")] }
    else
      { enabled := true
        secretKey := secretKey
        serverInit := true
        contractId := contractId
        networkPassphrase := some passphrase
        logs := [(LogLevel.info, "Stellar integration enabled.")] }
  else
    { enabled := false
      secretKey := none
      serverInit := false
      contractId := none
      networkPassphrase := none
      logs := [(LogLevel.info,
        "Stellar integration is disabled (STELLAR_ENABLED != true)")] }

/-- The `isEnabled` getter. -/
def isEnabled (st : ServiceState) : Bool := st.enabled

/-! ## The network oracle and `registerAsset` -/

/-- Result of `simulateTransaction`: either an error
(`rpc.Api.isSimulationError`) or a successful simulation (footprint and
auth entries abstracted away). -/
inductive SimResult where
  | ok : SimResult
  | error : String → SimResult
deriving DecidableEq

/-- Result of `sendTransaction`: a status string (`'ERROR'`, `'PENDING'`,
...), the transaction hash, and the serialized `errorResult` payload. -/
structure SendResult where
  status : String
  hash : String
  errorResult : String
deriving DecidableEq

/-- The network calls `registerAsset` can perform, in the order it performs
them; `getTransaction n` is the `n`-th confirmation poll. -/
inductive NetCall where
  | getAccount : NetCall
  | simulate : NetCall
  | sendTransaction : NetCall
  | getTransaction : ℕ → NetCall
deriving DecidableEq

/-- Oracle for the external RPC endpoint: the responses the network would
give to each call of one `registerAsset` run. -/
structure Network where
  getAccount : Except String Unit
  simulate : SimResult
  send : SendResult
  getTx : ℕ → GetTxStatus

/-- Observable outcome of one `registerAsset` run: the returned hash or
thrown error, the network calls performed, and the contract-call payload if
its construction completed. -/
structure RunResult where
  result : Except String String
  calls : List NetCall
  payload : Option ScVal

/-- The JS `TypeError` raised when the payload construction dereferences
`this.keypair` while the service was never configured. -/
def typeErrorKeypair : String :=
  "TypeError: Cannot read properties of undefined (reading publicKey)"

/-- The JS `TypeError` raised when `this.server.getAccount` is called while
`this.server` was never constructed. -/
def typeErrorServer : String :=
  "TypeError: Cannot read properties of undefined (reading getAccount)"

/-- Embedding of `StellarService.registerAsset`.  Here `pubKeyOf` is the SDK's
secret-key-to-public-address derivation (`Keypair.fromSecret(...).publicKey()`),
kept as a parameter since it lives in the Stellar SDK; `now` is
`Math.floor(Date.now() / 1000)`.  The body follows the source line by line:
derive the asset id, map the status, convert the price, build the `ScvMap`
(dereferencing the keypair), fetch the account, simulate, assemble and sign
(no observable effect), submit, then poll. -/
def registerAsset (pubKeyOf : String → String) (st : ServiceState)
    (net : Network) (asset : Asset) (now : ℕ) : RunResult :=
  let assetId := (deriveAssetId asset.id).buffer
  let sorobanStatus := mapStatus asset.status
  let cents := jsCents asset.purchasePrice
  match st.secretKey with
  | none => ⟨Except.error typeErrorKeypair, [], none⟩
  | some sk =>
    let payload := assetScVal (pubKeyOf sk) assetId sorobanStatus cents asset now
    if !st.serverInit then ⟨Except.error typeErrorServer, [], some payload⟩
    else
      match net.getAccount with
      | Except.error e => ⟨Except.error e, [NetCall.getAccount], some payload⟩
      | Except.ok _ =>
        match net.simulate with
        | SimResult.error e =>
          ⟨Except.error ("Simulation failed: " ++ e),
           [NetCall.getAccount, NetCall.simulate], some payload⟩
        | SimResult.ok =>
          if net.send.status == "ERROR" then
            ⟨Except.error ("Transaction submission failed: " ++ net.send.errorResult),
             [NetCall.getAccount, NetCall.simulate, NetCall.sendTransaction],
             some payload⟩
          else
            let p := pollForConfirmation net.getTx net.send.hash
            ⟨p.1,
             [NetCall.getAccount, NetCall.simulate, NetCall.sendTransaction] ++
               (List.range p.2).map (fun i => NetCall.getTransaction (i + 1)),
             some payload⟩

/-! ## Helper lemmas about the polling loop -/

/-- If every status from attempt `a` through the remaining budget is
pending, the loop exhausts its budget and reports the timeout, polling
once per remaining attempt. -/
theorem pollAux_timeout (getTx : ℕ → GetTxStatus) (txHash : String) :
    ∀ (r a : ℕ), (∀ k, a ≤ k → k < a + r → getTx k = GetTxStatus.NOT_FOUND) →
      pollAux getTx txHash a r = (Except.error (timeoutMsg txHash), r) := by
  intro r
  induction r with
  | zero => intro a _; rfl
  | succ r ih =>
    intro a h
    have ha : getTx a = GetTxStatus.NOT_FOUND := h a le_rfl (by omega)
    have hrec := ih (a + 1) (fun k hk1 hk2 => h k (by omega) (by omega))
    simp [pollAux, ha, hrec]

/-- If the first terminal status is `SUCCESS` at attempt `N` within the
remaining budget, the loop returns the hash after exactly `N + 1 - a`
polls. -/
theorem pollAux_success (getTx : ℕ → GetTxStatus) (txHash : String) (N : ℕ)
    (hS : getTx N = GetTxStatus.SUCCESS) :
    ∀ (r a : ℕ), a ≤ N → N < a + r →
      (∀ k, a ≤ k → k < N → getTx k = GetTxStatus.NOT_FOUND) →
      pollAux getTx txHash a r = (Except.ok txHash, N + 1 - a) := by
  intro r
  induction r with
  | zero => intro a h1 h2 _; omega
  | succ r ih =>
    intro a h1 h2 h
    rcases Nat.eq_or_lt_of_le h1 with heq | hlt
    · subst heq
      simp [pollAux, hS]
    · have ha : getTx a = GetTxStatus.NOT_FOUND := h a le_rfl hlt
      have hrec := ih (a + 1) (by omega) (by omega)
        (fun k hk1 hk2 => h k (by omega) hk2)
      simp [pollAux, ha, hrec]
      omega

/-- If the first terminal status is `FAILED` at attempt `N` within the
remaining budget, the loop raises the on-chain-failure error after exactly
`N + 1 - a` polls. -/
theorem pollAux_failed (getTx : ℕ → GetTxStatus) (txHash : String) (N : ℕ)
    (hF : getTx N = GetTxStatus.FAILED) :
    ∀ (r a : ℕ), a ≤ N → N < a + r →
      (∀ k, a ≤ k → k < N → getTx k = GetTxStatus.NOT_FOUND) →
      pollAux getTx txHash a r = (Except.error (onChainFailMsg txHash), N + 1 - a) := by
  intro r
  induction r with
  | zero => intro a h1 h2 _; omega
  | succ r ih =>
    intro a h1 h2 h
    rcases Nat.eq_or_lt_of_le h1 with heq | hlt
    · subst heq
      simp [pollAux, hF]
    · have ha : getTx a = GetTxStatus.NOT_FOUND := h a le_rfl hlt
      have hrec := ih (a + 1) (by omega) (by omega)
        (fun k hk1 hk2 => h k (by omega) hk2)
      simp [pollAux, ha, hrec]
      omega

/-! ## Claim theorems -/

/-- C2: for every sequence of poll results, (i) if the first terminal
result is `SUCCESS` at attempt `N ≤ 20`, `pollForConfirmation` returns the
transaction hash after exactly `N` polls; (ii) if all 20 attempts are
pending, it raises the timeout error after 20 polls; (iii) if the first
terminal result is `FAILED` at attempt `N ≤ 20`, it raises the on-chain
failure immediately, performing exactly `N` polls and no more. -/
theorem pollForConfirmation_spec (getTx : ℕ → GetTxStatus) (txHash : String) :
    (∀ N, N ≤ 20 → 1 ≤ N → getTx N = GetTxStatus.SUCCESS →
      (∀ k, k < N → 1 ≤ k → getTx k = GetTxStatus.NOT_FOUND) →
      pollForConfirmation getTx txHash = (Except.ok txHash, N)) ∧
    ((∀ k, k ≤ 20 → 1 ≤ k → getTx k = GetTxStatus.NOT_FOUND) →
      pollForConfirmation getTx txHash = (Except.error (timeoutMsg txHash), 20)) ∧
    (∀ N, N ≤ 20 → 1 ≤ N → getTx N = GetTxStatus.FAILED →
      (∀ k, k < N → 1 ≤ k → getTx k = GetTxStatus.NOT_FOUND) →
      pollForConfirmation getTx txHash = (Except.error (onChainFailMsg txHash), N)) := by
  refine ⟨fun N h20 h1 hS hp => ?_, fun hp => ?_, fun N h20 h1 hF hp => ?_⟩
  · have := pollAux_success getTx txHash N hS 20 1 h1 (by omega)
      (fun k hk1 hk2 => hp k hk2 hk1)
    simpa [pollForConfirmation, Nat.succ_sub_one] using this
  · have := pollAux_timeout getTx txHash 20 1
      (fun k hk1 hk2 => hp k (by omega) hk1)
    simpa [pollForConfirmation] using this
  · have := pollAux_failed getTx txHash N hF 20 1 h1 (by omega)
      (fun k hk1 hk2 => hp k hk2 hk1)
    simpa [pollForConfirmation, Nat.succ_sub_one] using this

/-- A poll oracle that is pending for 19 attempts and succeeds on the
20th. -/
def pollLateSuccess : ℕ → GetTxStatus :=
  fun n => if n = 20 then GetTxStatus.SUCCESS else GetTxStatus.NOT_FOUND

/-- A poll oracle that is always pending. -/
def pollAlwaysPending : ℕ → GetTxStatus :=
  fun _ => GetTxStatus.NOT_FOUND

/-- A poll oracle that fails on the 5th attempt. -/
def pollFailAt5 : ℕ → GetTxStatus :=
  fun n => if n = 5 then GetTxStatus.FAILED else GetTxStatus.NOT_FOUND

/-- Witness for C2: the three polling scenarios at concrete oracles —
19 pendings then a success returns the hash on the 20th poll, 20 pendings
time out, and a failure at attempt 5 stops after 5 polls. -/
theorem pollForConfirmation_spec_witness :
    pollForConfirmation pollLateSuccess "h" = (Except.ok "h", 20) ∧
    pollForConfirmation pollAlwaysPending "h" =
      (Except.error (timeoutMsg "h"), 20) ∧
    pollForConfirmation pollFailAt5 "h" =
      (Except.error (onChainFailMsg "h"), 5) :=
  ⟨(pollForConfirmation_spec pollLateSuccess "h").1 20 (by decide) (by decide)
      (by decide) (by decide),
   (pollForConfirmation_spec pollAlwaysPending "h").2.1 (by decide),
   (pollForConfirmation_spec pollFailAt5 "h").2.2 5 (by decide) (by decide)
      (by decide) (by decide)⟩

/-- C5: the status mapping is a closed total rule — `RETIRED` maps to the
tag `"Retired"` and every other enumerated `AssetStatus` value maps to
`"Active"`. -/
theorem mapStatus_spec :
    mapStatus AssetStatus.RETIRED = "Retired" ∧
    ∀ s : AssetStatus, s ≠ AssetStatus.RETIRED → mapStatus s = "Active" := by
  refine ⟨rfl, fun s h => ?_⟩
  cases s
  · rfl
  · rfl
  · rfl
  · exact absurd rfl h

/-- Witness for C5 at the concrete status `ACTIVE`. -/
theorem mapStatus_spec_witness : mapStatus AssetStatus.ACTIVE = "Active" :=
  mapStatus_spec.2 AssetStatus.ACTIVE (by decide)

/-- C3: the purchase-price-to-cents conversion rounds half up at the cent
boundary on the representative values — `19.995` maps to `2000`, the exact
half `0.005` maps to `1`, and the representation-risky `19.99` maps to
`1999`; moreover `Math.round` on any exact half-integer double value rounds
up. -/
theorem jsCents_representative_values :
    jsCents (some (mkRat 19995 1000)) = 2000 ∧
    jsCents (some (mkRat 1 200)) = 1 ∧
    jsCents (some (mkRat 1999 100)) = 1999 ∧
    ∀ n : ℤ, jsRoundD (2 * n + 1, -1) = n + 1 := by
  refine ⟨by decide, by decide, by decide, fun n => ?_⟩
  show jsRoundD (2 * n + 1, -1) = n + 1
  simp only [jsRoundD]
  norm_num
  omega

/-- Helper: the big-endian byte serializer always emits exactly `count`
bytes. -/
theorem beBytes_length : ∀ (c v : ℕ), (beBytes c v).length = c := by
  intro c
  induction c with
  | zero => intro v; rfl
  | succ c ih => intro v; simp [beBytes, ih]

/-- Helper: a SHA-256 digest is always exactly 32 bytes, whatever the
message. -/
theorem sha256_length (msg : List ℕ) : (sha256 msg).length = 32 := by
  simp [sha256, beBytes_length]

/-- C8: `deriveAssetId` is a pure total function — every textual identifier
yields a 32-byte digest, and identical inputs yield identical digests. -/
theorem deriveAssetId_spec :
    (∀ uuid : String, (deriveAssetId uuid).buffer.length = 32) ∧
    (∀ u1 u2 : String, u1 = u2 → deriveAssetId u1 = deriveAssetId u2) :=
  ⟨fun uuid => sha256_length (strBytes uuid),
   fun _ _ h => congrArg deriveAssetId h⟩

/-- Witness for C8 at a concrete identifier pair. -/
theorem deriveAssetId_spec_witness :
    deriveAssetId "9f1b2c3d-0000-4eee-aaaa-123456789abc" =
      deriveAssetId "9f1b2c3d-0000-4eee-aaaa-123456789abc" :=
  deriveAssetId_spec.2 _ _ rfl

/-- Helper: whenever the keypair was initialized, the payload
`registerAsset` builds is exactly `assetScVal` of the derived id, the
mapped status and the converted price — in every branch of the run. -/
theorem registerAsset_payload_eq (pubKeyOf : String → String)
    (st : ServiceState) (net : Network) (asset : Asset) (now : ℕ)
    (sk : String) (hsk : st.secretKey = some sk) :
    (registerAsset pubKeyOf st net asset now).payload =
      some (assetScVal (pubKeyOf sk) (deriveAssetId asset.id).buffer
        (mapStatus asset.status) (jsCents asset.purchasePrice) asset now) := by
  simp only [registerAsset, hsk]
  cases hsrv : st.serverInit
  · simp
  · rcases hacc : net.getAccount with e | u
    · simp [hacc]
    · rcases hsim : net.simulate with _ | e
      · simp [hacc, hsim]
        split <;> simp
      · simp [hacc, hsim]

/-- C10: every payload `registerAsset` builds (it builds one in every run
in which the signing keypair exists) sets `custom_attributes` to the empty
vector, `last_transfer_timestamp` to `0`, `metadata_uri` to the empty
string and `owner` to the public address of the service's signing key; a
missing description, a missing category, and a present category with a
missing name are all coerced to the empty string. -/
theorem registerAsset_payload_fixed_fields (pubKeyOf : String → String)
    (st : ServiceState) (net : Network) (asset : Asset) (now : ℕ)
    (sk : String) (hsk : st.secretKey = some sk) :
    ∃ p, (registerAsset pubKeyOf st net asset now).payload = some p ∧
      ScVal.lookup "custom_attributes" p = some (ScVal.vec []) ∧
      ScVal.lookup "last_transfer_timestamp" p = some (ScVal.u64 0) ∧
      ScVal.lookup "metadata_uri" p = some (ScVal.str "") ∧
      ScVal.lookup "owner" p = some (ScVal.addr (pubKeyOf sk)) ∧
      (asset.description = none →
        ScVal.lookup "description" p = some (ScVal.str "")) ∧
      (asset.category = none →
        ScVal.lookup "category" p = some (ScVal.str "")) ∧
      (∀ c, asset.category = some c → c.name = none →
        ScVal.lookup "category" p = some (ScVal.str "")) := by
  refine ⟨_, registerAsset_payload_eq pubKeyOf st net asset now sk hsk,
    rfl, rfl, rfl, rfl, ?_, ?_, ?_⟩
  · intro hd
    simp [assetScVal, ScVal.lookup, List.find?, hd]
  · intro hc
    simp [assetScVal, ScVal.lookup, List.find?, hc]
  · intro c hc hn
    simp [assetScVal, ScVal.lookup, List.find?, hc, hn]

/-- Counterexample to C4: at the concrete purchase price `0.125` the code
computes `Math.round(0.125 * 100) = 13` cents, while multiplying by `100`
and truncating yields `12` — the encoded value is not a truncation. -/
theorem purchase_value_not_truncation :
    jsCents (some (mkRat 1 8)) = 13 ∧
    specTruncCents (mkRat 1 8) = 12 ∧
    jsCents (some (mkRat 1 8)) ≠ specTruncCents (mkRat 1 8) := by
  have h1 : jsCents (some (mkRat 1 8)) = 13 := by decide
  have h2 : specTruncCents (mkRat 1 8) = 12 := by
    have hm : (mkRat 1 8 * 100 : ℚ) = mkRat 100 8 := by norm_num
    simp only [specTruncCents, hm]
    decide
  refine ⟨h1, h2, ?_⟩
  rw [h1, h2]
  decide

/-- C4 amended: the `purchase_value` entry of the on-chain record is the
purchase price converted to binary64, multiplied by `100` in binary64
arithmetic, and rounded to the nearest integer by `Math.round` (ties
toward `+∞`) — not truncated — before being encoded as the signed 128-bit
entry. -/
theorem purchase_value_encoding (pubKeyOf : String → String)
    (st : ServiceState) (net : Network) (asset : Asset) (now : ℕ)
    (sk : String) (hsk : st.secretKey = some sk) :
    ∃ p, (registerAsset pubKeyOf st net asset now).payload = some p ∧
      ScVal.lookup "purchase_value" p =
        some (ScVal.i128 (jsCents asset.purchasePrice)) :=
  ⟨_, registerAsset_payload_eq pubKeyOf st net asset now sk hsk, rfl⟩

/-- C6: when transaction simulation reports an error, `registerAsset`
raises `Simulation failed: ...` at once — the submission call is never
made and no poll is performed. -/
theorem simulation_error_aborts (pubKeyOf : String → String)
    (st : ServiceState) (net : Network) (asset : Asset) (now : ℕ)
    (sk e : String) (hsk : st.secretKey = some sk)
    (hsrv : st.serverInit = true) (hacc : net.getAccount = Except.ok ())
    (hsim : net.simulate = SimResult.error e) :
    (registerAsset pubKeyOf st net asset now).result =
      Except.error ("Simulation failed: " ++ e) ∧
    NetCall.sendTransaction ∉ (registerAsset pubKeyOf st net asset now).calls ∧
    ∀ n, NetCall.getTransaction n ∉
      (registerAsset pubKeyOf st net asset now).calls := by
  refine ⟨?_, ?_, fun n => ?_⟩ <;>
    simp [registerAsset, hsk, hsrv, hacc, hsim]

/-- C7: when submission returns status `ERROR`, `registerAsset` raises an
error embedding the network's error payload, and no poll is made before
(or after) that error. -/
theorem submission_error_aborts (pubKeyOf : String → String)
    (st : ServiceState) (net : Network) (asset : Asset) (now : ℕ)
    (sk : String) (hsk : st.secretKey = some sk)
    (hsrv : st.serverInit = true) (hacc : net.getAccount = Except.ok ())
    (hsim : net.simulate = SimResult.ok)
    (hsend : net.send.status = "ERROR") :
    (registerAsset pubKeyOf st net asset now).result =
      Except.error ("Transaction submission failed: " ++ net.send.errorResult) ∧
    ∀ n, NetCall.getTransaction n ∉
      (registerAsset pubKeyOf st net asset now).calls := by
  refine ⟨?_, fun n => ?_⟩ <;>
    simp [registerAsset, hsk, hsrv, hacc, hsim, hsend]

/-- C9: when `STELLAR_ENABLED` is exactly `"true"` but the signing key or
the contract identifier is missing, initialization forces the bridge back
to disabled with a logged error; the state is assigned once at startup and
never mutated afterwards, so this holds for the process lifetime. -/
theorem missing_config_disables (cfg : String → Option String)
    (hE : cfg "STELLAR_ENABLED" = some "true")
    (hmiss : cfg "STELLAR_SECRET_KEY" = none ∨
      cfg "STELLAR_CONTRACT_ID" = none) :
    isEnabled (initState cfg) = false ∧
    (LogLevel.error,
      "STELLAR_SECRET_KEY and STELLAR_CONTRACT_ID must be set when STELLAR_ENABLED=true")
      ∈ (initState cfg).logs := by
  rcases hmiss with h | h <;>
    simp [initState, isEnabled, hE, h, falsyStr]

/-- An environment with no Stellar settings at all. -/
def cfgEmpty : String → Option String := fun _ => none

/-- An environment enabling the bridge but omitting the signing key and
the contract identifier. -/
def cfgEnabledOnly : String → Option String := fun k =>
  if k = "STELLAR_ENABLED" then some "true" else none

/-- A fully-populated environment. -/
def cfgFull : String → Option String := fun k =>
  if k = "STELLAR_ENABLED" then some "true"
  else if k = "STELLAR_SECRET_KEY" then some "SECRETKEY"
  else if k = "STELLAR_CONTRACT_ID" then some "CONTRACT1"
  else none

/-- A benign network oracle: account fetch succeeds, simulation succeeds,
submission is accepted, and the first poll confirms. -/
def netIdle : Network :=
  ⟨Except.ok (), SimResult.ok, ⟨"PENDING", "deadbeef", ""⟩,
   fun _ => GetTxStatus.SUCCESS⟩

/-- A network oracle whose simulation reports an error. -/
def netSimErr : Network :=
  ⟨Except.ok (), SimResult.error "host function failed", ⟨"PENDING", "h", ""⟩,
   fun _ => GetTxStatus.SUCCESS⟩

/-- A network oracle whose submission is rejected. -/
def netSendErr : Network :=
  ⟨Except.ok (), SimResult.ok, ⟨"ERROR", "h", "txInsufficientFee"⟩,
   fun _ => GetTxStatus.SUCCESS⟩

/-- A concrete asset with a category whose name is missing. -/
def assetSample : Asset :=
  ⟨"a1b2c3", "Laptop", none, some ⟨none⟩, AssetStatus.ACTIVE,
   some (mkRat 19995 1000)⟩

/-- A concrete stand-in for the SDK's public-key derivation. -/
def pubKeySample : String → String := fun s => "G" ++ s

/-- Witness for C9: the enabled-but-unconfigured environment ends up
disabled with the error logged. -/
theorem missing_config_disables_witness :
    isEnabled (initState cfgEnabledOnly) = false ∧
    (LogLevel.error,
      "STELLAR_SECRET_KEY and STELLAR_CONTRACT_ID must be set when STELLAR_ENABLED=true")
      ∈ (initState cfgEnabledOnly).logs :=
  missing_config_disables cfgEnabledOnly rfl (Or.inl rfl)

/-- Decidable check that `pat` occurs as a contiguous sublist of the second
argument. -/
def hasSub (pat : List Char) : List Char → Bool
  | [] => pat.isEmpty
  | c :: t => pat.isPrefixOf (c :: t) || hasSub pat t

/-- Counterexample to C1: with `STELLAR_ENABLED` absent, `registerAsset` is
not inert in the claimed sense — it neither returns normally (no-op) nor
raises an error that reports disabling (no occurrence of "disabled" in the
message): it throws a `TypeError` on the uninitialized keypair. -/
theorem registerAsset_disabled_not_inert :
    ¬ ((∃ h, (registerAsset pubKeySample (initState cfgEmpty) netIdle
          assetSample 0).result = Except.ok h) ∨
       (∃ m, (registerAsset pubKeySample (initState cfgEmpty) netIdle
          assetSample 0).result = Except.error m ∧
          hasSub "disabled".toList m.toList = true)) := by
  have hr : (registerAsset pubKeySample (initState cfgEmpty) netIdle
      assetSample 0).result = Except.error typeErrorKeypair := rfl
  rintro (⟨h, hh⟩ | ⟨m, hm, hsub⟩)
  · rw [hr] at hh
    exact Except.noConfusion hh
  · rw [hr] at hm
    injection hm with hm
    subst hm
    revert hsub
    decide

/-- C1 amended: when the enablement setting is absent or is any string
other than `"true"`, `isEnabled` reports false, and `registerAsset` — which
performs no enablement check — throws a `TypeError` while dereferencing the
uninitialized keypair, before any network call is made; so no registration
reaches the network, but the method neither no-ops nor reports disabled. -/
theorem stellar_disabled_spec (cfg : String → Option String)
    (hE : cfg "STELLAR_ENABLED" ≠ some "true") :
    isEnabled (initState cfg) = false ∧
    ∀ (pubKeyOf : String → String) (net : Network) (asset : Asset) (now : ℕ),
      (registerAsset pubKeyOf (initState cfg) net asset now).result =
        Except.error typeErrorKeypair ∧
      (registerAsset pubKeyOf (initState cfg) net asset now).calls = [] := by
  have hb : (cfg "STELLAR_ENABLED" == some "true") = false := by
    simpa using hE
  refine ⟨by simp [isEnabled, initState, hb], fun pubKeyOf net asset now => ?_⟩
  constructor <;> simp [registerAsset, initState, hb]

/-- Witness for the amended C1 at the empty environment. -/
theorem stellar_disabled_spec_witness :
    isEnabled (initState cfgEmpty) = false ∧
    (registerAsset pubKeySample (initState cfgEmpty) netIdle assetSample 0).result =
      Except.error typeErrorKeypair ∧
    (registerAsset pubKeySample (initState cfgEmpty) netIdle assetSample 0).calls = [] :=
  ⟨(stellar_disabled_spec cfgEmpty (by simp [cfgEmpty])).1,
   (stellar_disabled_spec cfgEmpty (by simp [cfgEmpty])).2 pubKeySample netIdle
     assetSample 0⟩

/-- Witness for C10 at a fully-configured service and a concrete asset
with a missing description and a category with a missing name. -/
theorem registerAsset_payload_fixed_fields_witness :
    ∃ p, (registerAsset pubKeySample (initState cfgFull) netIdle
        assetSample 1700000000).payload = some p ∧
      ScVal.lookup "custom_attributes" p = some (ScVal.vec []) ∧
      ScVal.lookup "last_transfer_timestamp" p = some (ScVal.u64 0) ∧
      ScVal.lookup "metadata_uri" p = some (ScVal.str "") ∧
      ScVal.lookup "owner" p = some (ScVal.addr (pubKeySample "SECRETKEY")) ∧
      (assetSample.description = none →
        ScVal.lookup "description" p = some (ScVal.str "")) ∧
      (assetSample.category = none →
        ScVal.lookup "category" p = some (ScVal.str "")) ∧
      (∀ c, assetSample.category = some c → c.name = none →
        ScVal.lookup "category" p = some (ScVal.str "")) :=
  registerAsset_payload_fixed_fields pubKeySample (initState cfgFull) netIdle
    assetSample 1700000000 "SECRETKEY" rfl

/-- Witness for the amended C4 at a fully-configured service. -/
theorem purchase_value_encoding_witness :
    ∃ p, (registerAsset pubKeySample (initState cfgFull) netIdle
        assetSample 1700000000).payload = some p ∧
      ScVal.lookup "purchase_value" p =
        some (ScVal.i128 (jsCents assetSample.purchasePrice)) :=
  purchase_value_encoding pubKeySample (initState cfgFull) netIdle
    assetSample 1700000000 "SECRETKEY" rfl

/-- Witness for C6: with a simulation error, the run raises the simulation
failure and performs no submission and no poll. -/
theorem simulation_error_aborts_witness :
    (registerAsset pubKeySample (initState cfgFull) netSimErr
        assetSample 0).result =
      Except.error ("Simulation failed: " ++ "host function failed") ∧
    NetCall.sendTransaction ∉
      (registerAsset pubKeySample (initState cfgFull) netSimErr
        assetSample 0).calls ∧
    ∀ n, NetCall.getTransaction n ∉
      (registerAsset pubKeySample (initState cfgFull) netSimErr
        assetSample 0).calls :=
  simulation_error_aborts pubKeySample (initState cfgFull) netSimErr
    assetSample 0 "SECRETKEY" "host function failed" rfl rfl rfl rfl

/-- Witness for C7: with a rejected submission, the run raises the
submission failure embedding the payload, with no poll. -/
theorem submission_error_aborts_witness :
    (registerAsset pubKeySample (initState cfgFull) netSendErr
        assetSample 0).result =
      Except.error ("Transaction submission failed: " ++
        netSendErr.send.errorResult) ∧
    ∀ n, NetCall.getTransaction n ∉
      (registerAsset pubKeySample (initState cfgFull) netSendErr
        assetSample 0).calls :=
  submission_error_aborts pubKeySample (initState cfgFull) netSendErr
    assetSample 0 "SECRETKEY" rfl rfl rfl rfl rfl

end ManageAssets
